import Mathlib

/-!
Shallow embedding of LollipopFt/rust_wgpu_tutorial.

The repository holds two variants of a minimal wgpu "hello triangle"
program:

* `src/src/lib.rs` (here namespace `Tutorial`): a `State` with a surface
  configuration, a stored window size, a render pipeline built with a
  vertex-buffer layout, a vertex buffer holding three hard-coded vertices,
  and `num_vertices`.
* `src/window/src/lib.rs` (here namespace `TutorialWindow`): the same
  skeleton without a vertex buffer; the render pass draws the literal
  range `0..3`.

GPU/windowing side effects (surface configuration, texture acquisition,
command submission, presentation, logging) are embedded as explicit
effect traces: every function that performs such effects in Rust returns,
next to its result, the list of effects it performed, in order.  The
outcome of `surface.get_current_texture()` is an input (an oracle) to
`render`, since it is decided by the external graphics backend.

Machine integers: the widths and heights are Rust `u32` values that are
only ever copied and compared against zero (no arithmetic), so they are
embedded as `Nat`.  The `f32` constants appearing in the vertex table and
the clear colour (0, 0.5, -0.5, 1) are all exactly representable, so they
are embedded as `ℚ`.
-/

namespace Tutorial

/-- winit::dpi::PhysicalSize<u32>. -/
structure PhysicalSize where
  width : Nat
  height : Nat
deriving DecidableEq

/-- wgpu::PresentMode (only the variant the program uses is listed
together with a second one so the type is not a singleton). -/
inductive PresentMode
  | Fifo
  | Immediate
deriving DecidableEq

/-- wgpu::TextureUsages as used here (RENDER_ATTACHMENT). -/
inductive TextureUsages
  | RENDER_ATTACHMENT
deriving DecidableEq

/-- wgpu::CompositeAlphaMode; the program uses the Opaque variant,
written `OpaqueAlpha` here. -/
inductive CompositeAlphaMode
  | OpaqueAlpha
  | Auto
deriving DecidableEq

/-- wgpu::SurfaceConfiguration (src/src/lib.rs variant, wgpu 0.13-style
with alpha_mode).  The texture format is kept opaque as a `Nat` index:
the program takes `surface.get_supported_formats(&adapter)[0]`, which is
decided by the external backend. -/
structure SurfaceConfiguration where
  usage : TextureUsages
  format : Nat
  width : Nat
  height : Nat
  present_mode : PresentMode
  alpha_mode : CompositeAlphaMode
deriving DecidableEq

/-- wgpu::PrimitiveTopology. -/
inductive PrimitiveTopology
  | PointList
  | LineList
  | LineStrip
  | TriangleList
  | TriangleStrip
deriving DecidableEq

/-- wgpu::FrontFace. -/
inductive FrontFace
  | Ccw
  | Cw
deriving DecidableEq

/-- wgpu::Face. -/
inductive Face
  | Front
  | Back
deriving DecidableEq

/-- wgpu::IndexFormat. -/
inductive IndexFormat
  | Uint16
  | Uint32
deriving DecidableEq

/-- wgpu::PolygonMode. -/
inductive PolygonMode
  | Fill
  | Line
  | Point
deriving DecidableEq

/-- wgpu::PrimitiveState. -/
structure PrimitiveState where
  topology : PrimitiveTopology
  strip_index_format : Option IndexFormat
  front_face : FrontFace
  cull_mode : Option Face
  unclipped_depth : Bool
  polygon_mode : PolygonMode
  conservative : Bool
deriving DecidableEq

/-- wgpu::VertexFormat (only the variant used). -/
inductive VertexFormat
  | Float32x3
deriving DecidableEq

/-- wgpu::VertexStepMode. -/
inductive VertexStepMode
  | Vertex
  | Instance
deriving DecidableEq

/-- wgpu::VertexAttribute. -/
structure VertexAttribute where
  offset : Nat
  shader_location : Nat
  format : VertexFormat
deriving DecidableEq

/-- wgpu::VertexBufferLayout. -/
structure VertexBufferLayout where
  array_stride : Nat
  step_mode : VertexStepMode
  attributes : List VertexAttribute
deriving DecidableEq

/-- wgpu::BlendState (the program uses REPLACE). -/
inductive BlendState
  | REPLACE
deriving DecidableEq

/-- wgpu::ColorWrites. -/
inductive ColorWrites
  | COLOR
  | ALL
deriving DecidableEq

/-- wgpu::ColorTargetState. -/
structure ColorTargetState where
  format : Nat
  blend : Option BlendState
  write_mask : ColorWrites
deriving DecidableEq

/-- wgpu::MultisampleState.  `mask: !0` on a 64-bit mask is 2^64 - 1. -/
structure MultisampleState where
  count : Nat
  mask : Nat
  alpha_to_coverage_enabled : Bool
deriving DecidableEq

/-- The data of the wgpu::RenderPipelineDescriptor the program builds
(shader modules are opaque; the entry point names are kept). -/
structure RenderPipeline where
  label : String
  vertex_entry_point : String
  vertex_buffers : List VertexBufferLayout
  primitive : PrimitiveState
  fragment_entry_point : String
  fragment_targets : List ColorTargetState
  multisample : MultisampleState
deriving DecidableEq

/-- A vertex: position and colour, three f32 each (all constants used are
exactly representable, embedded in ℚ). -/
structure Vertex where
  pos : ℚ × ℚ × ℚ
  color : ℚ × ℚ × ℚ
deriving DecidableEq

/-- The hard-coded VERTICES table of src/src/lib.rs. -/
def VERTICES : List Vertex :=
  [ { pos := (0, 1/2, 0), color := (1, 0, 0) },
    { pos := (-(1/2), -(1/2), 0), color := (0, 1, 0) },
    { pos := (1/2, -(1/2), 0), color := (0, 0, 1) } ]

/-- Vertex::desc(): array_stride is size_of::<Vertex>() = 24 bytes
(six 4-byte floats); the second attribute's offset is
size_of::<[f32; 3]>() = 12 bytes. -/
def Vertex.desc : VertexBufferLayout :=
  { array_stride := 24
    step_mode := VertexStepMode.Vertex
    attributes :=
      [ { offset := 0, shader_location := 0, format := VertexFormat.Float32x3 },
        { offset := 12, shader_location := 1, format := VertexFormat.Float32x3 } ] }

/-- wgpu::SurfaceError (wgpu 0.13's four variants). -/
inductive SurfaceError
  | Timeout
  | Outdated
  | Lost
  | OutOfMemory
deriving DecidableEq

/-- wgpu::Color; the clear colour used is opaque black. -/
structure Color where
  r : ℚ
  g : ℚ
  b : ℚ
  a : ℚ
deriving DecidableEq

/-- Commands recorded into a command buffer via the render pass.
`beginRenderPass` carries the pass label, the clear colour of its single
color attachment (LoadOp::Clear) and the store flag of its Operations. -/
inductive RenderCmd
  | beginRenderPass (label : String) (clearColor : Color) (store : Bool)
  | setPipeline
  | setVertexBuffer (slot : Nat)
  | draw (vertexStart vertexEnd instanceStart instanceEnd : Nat)
deriving DecidableEq

/-- Observable side effects on the graphics backend, parameterized by the
surface-configuration type (the two program variants use slightly
different configuration records).  `submit` carries the list of command
buffers handed to the queue, each of which is the list of commands it
recorded. -/
inductive Effect (Cfg : Type)
  | configureSurface (config : Cfg)
  | getCurrentTexture
  | createView
  | submit (buffers : List (List RenderCmd))
  | present
  | logError (e : SurfaceError)
  | requestRedraw
deriving DecidableEq

/-- The State struct of src/src/lib.rs.  The surface, device and queue
handles are opaque and carry no data; their operations appear as
effects.  The vertex buffer is represented by its contents. -/
structure State where
  config : SurfaceConfiguration
  size : PhysicalSize
  render_pipeline : RenderPipeline
  vertex_buffer : List Vertex
  num_vertices : Nat
deriving DecidableEq

/-- State::new (src/src/lib.rs, lines 34-157), restricted to the data it
stores and the surface effect it performs.  Inputs decided by the
environment: the window's initial inner size, and the backend's first
supported surface format.  Returns the constructed state together with
the effects performed (one surface.configure call). -/
def State.new (initSize : PhysicalSize) (surfaceFormat : Nat) :
    State × List (Effect SurfaceConfiguration) :=
  let config : SurfaceConfiguration :=
    { usage := TextureUsages.RENDER_ATTACHMENT
      format := surfaceFormat
      width := initSize.width
      height := initSize.height
      present_mode := PresentMode.Fifo
      alpha_mode := CompositeAlphaMode.OpaqueAlpha }
  let render_pipeline : RenderPipeline :=
    { label := "Render Pipeline"
      vertex_entry_point := "vs_main"
      vertex_buffers := [Vertex.desc]
      primitive :=
        { topology := PrimitiveTopology.TriangleList
          strip_index_format := none
          front_face := FrontFace.Ccw
          cull_mode := some Face.Back
          unclipped_depth := false
          polygon_mode := PolygonMode.Fill
          conservative := false }
      fragment_entry_point := "fs_main"
      fragment_targets :=
        [ { format := config.format
            blend := some BlendState.REPLACE
            write_mask := ColorWrites.COLOR } ]
      multisample :=
        { count := 1, mask := 2 ^ 64 - 1, alpha_to_coverage_enabled := false } }
  ( { config := config
      size := initSize
      render_pipeline := render_pipeline
      vertex_buffer := VERTICES
      num_vertices := VERTICES.length }
  , [Effect.configureSurface config] )

/-- State::resize (src/src/lib.rs, lines 159-166): if both dimensions of
the new size are positive, store the new size, update the configuration's
width and height, and reconfigure the surface; otherwise do nothing. -/
def State.resize (s : State) (new_size : PhysicalSize) :
    State × List (Effect SurfaceConfiguration) :=
  if 0 < new_size.width ∧ 0 < new_size.height then
    let config :=
      { s.config with width := new_size.width, height := new_size.height }
    ( { s with size := new_size, config := config }
    , [Effect.configureSurface config] )
  else
    (s, [])

/-- State::input (src/src/lib.rs, lines 168-170): always false. -/
def State.input (_s : State) : Bool := false

/-- State::update (src/src/lib.rs, line 172): does nothing. -/
def State.update (s : State) : State := s

/-- The clear colour of the render pass: opaque black. -/
def clearBlack : Color := { r := 0, g := 0, b := 0, a := 1 }

/-- State::render (src/src/lib.rs, lines 174-213).  `acquire` is the
outcome of `surface.get_current_texture()` decided by the backend
(`none` = success, `some e` = the error).  Returns the state (render
mutates no field), the Result, and the effect trace: on failure the `?`
operator returns after the acquisition attempt; on success the program
creates a view, records one render pass (clear to black, set pipeline,
set vertex buffer slot 0, one draw over vertices 0..num_vertices and
instances 0..1), submits that single command buffer, and presents. -/
def State.render (s : State) (acquire : Option SurfaceError) :
    State × Except SurfaceError Unit × List (Effect SurfaceConfiguration) :=
  match acquire with
  | some e => (s, Except.error e, [Effect.getCurrentTexture])
  | none =>
    ( s
    , Except.ok ()
    , [ Effect.getCurrentTexture
      , Effect.createView
      , Effect.submit
          [ [ RenderCmd.beginRenderPass "Render Pass" clearBlack true
            , RenderCmd.setPipeline
            , RenderCmd.setVertexBuffer 0
            , RenderCmd.draw 0 s.num_vertices 0 1 ] ]
      , Effect.present ] )

/-- winit::event::ElementState. -/
inductive ElementState
  | Pressed
  | Released
deriving DecidableEq

/-- winit::event::VirtualKeyCode: Escape plus an opaque code for every
other key. -/
inductive VirtualKeyCode
  | Escape
  | OtherKey (code : Nat)
deriving DecidableEq

/-- winit::event::KeyboardInput (the fields the program matches on). -/
structure KeyboardInput where
  state : ElementState
  virtual_keycode : Option VirtualKeyCode
deriving DecidableEq

/-- winit::event::WindowEvent, restricted to the variants the program
matches; every unmatched variant is `otherWindowEvent`.  A resize event's
`PhysicalSize<i32>.cast::<u32>()` in the source is the identity on the
sizes a window can report, so both resize-like events carry a
PhysicalSize directly. -/
inductive WindowEvent
  | CloseRequested
  | KeyboardInputEvent (input : KeyboardInput)
  | Resized (physical_size : PhysicalSize)
  | ScaleFactorChanged (new_inner_size : PhysicalSize)
  | otherWindowEvent
deriving DecidableEq

/-- winit::event::Event as dispatched by run().  The program guards
RedrawRequested and WindowEvent on `window_id == window.id()`; there is a
single window, and an event for any other window falls into the catch-all
arm, modelled by `otherEvent`.  A RedrawRequested event carries the
oracle for the `get_current_texture` call its handler will perform. -/
inductive EventIn
  | RedrawRequested (acquire : Option SurfaceError)
  | MainEventsCleared
  | WindowEventFor (event : WindowEvent)
  | otherEvent
deriving DecidableEq

/-- winit::event_loop::ControlFlow as used: the loop starts in Poll and
the handler only ever sets Exit. -/
inductive ControlFlow
  | Poll
  | Exit
deriving DecidableEq

/-- The state owned by the event-loop closure: the State plus the
control-flow cell. -/
structure LoopState where
  state : State
  control_flow : ControlFlow
deriving DecidableEq

/-- One invocation of the event-loop closure of run() (src/src/lib.rs,
lines 249-296) on a single event: the match over Event, including the
render-error handling (Lost → resize(state.size), OutOfMemory → Exit,
other error → log it) and the WindowEvent dispatch guarded by
`!state.input(event)`.  Returns the updated loop state and the effects
performed. -/
def step (ls : LoopState) (ev : EventIn) :
    LoopState × List (Effect SurfaceConfiguration) :=
  match ev with
  | EventIn.RedrawRequested acquire =>
    let s := ls.state.update
    match s.render acquire with
    | (s', Except.ok _, effs) => ({ ls with state := s' }, effs)
    | (s', Except.error SurfaceError.Lost, effs) =>
      let (s'', reffs) := s'.resize s'.size
      ({ ls with state := s'' }, effs ++ reffs)
    | (s', Except.error SurfaceError.OutOfMemory, effs) =>
      ({ ls with state := s', control_flow := ControlFlow.Exit }, effs)
    | (s', Except.error e, effs) =>
      ({ ls with state := s' }, effs ++ [Effect.logError e])
  | EventIn.MainEventsCleared => (ls, [Effect.requestRedraw])
  | EventIn.WindowEventFor event =>
    if ls.state.input then (ls, [])
    else
      match event with
      | WindowEvent.CloseRequested =>
        ({ ls with control_flow := ControlFlow.Exit }, [])
      | WindowEvent.KeyboardInputEvent
          { state := ElementState.Pressed
            virtual_keycode := some VirtualKeyCode.Escape } =>
        ({ ls with control_flow := ControlFlow.Exit }, [])
      | WindowEvent.Resized physical_size =>
        let (s', effs) := ls.state.resize physical_size
        ({ ls with state := s' }, effs)
      | WindowEvent.ScaleFactorChanged new_inner_size =>
        let (s', effs) := ls.state.resize new_inner_size
        ({ ls with state := s' }, effs)
      | _ => (ls, [])
  | EventIn.otherEvent => (ls, [])

/-- The event loop's driver over a finite event sequence: winit's
EventLoop::run delivers events one at a time to the closure and stops
delivering events once the control flow has been set to Exit (the
external collaborator semantics of spec §4.4/§6).  Returns the final loop
state and the concatenated effect trace. -/
def runLoop (ls : LoopState) : List EventIn →
    LoopState × List (Effect SurfaceConfiguration)
  | [] => (ls, [])
  | ev :: rest =>
    match ls.control_flow with
    | ControlFlow.Exit => (ls, [])
    | ControlFlow.Poll =>
      let (ls', effs) := step ls ev
      let (lsEnd, effsRest) := runLoop ls' rest
      (lsEnd, effs ++ effsRest)

/-- The states of the src/src/lib.rs variant reachable from startup: the
state built by State::new from the window's initial inner size and the
backend's chosen format, closed under the two mutating entry points the
program ever calls, resize (with any size) and render (with any
acquisition outcome). -/
inductive Reachable (initSize : PhysicalSize) (surfaceFormat : Nat) :
    State → Prop
  | new : Reachable initSize surfaceFormat (State.new initSize surfaceFormat).1
  | resize (s : State) (new_size : PhysicalSize) :
      Reachable initSize surfaceFormat s →
      Reachable initSize surfaceFormat (s.resize new_size).1
  | render (s : State) (acquire : Option SurfaceError) :
      Reachable initSize surfaceFormat s →
      Reachable initSize surfaceFormat (s.render acquire).1

end Tutorial

namespace TutorialWindow

open Tutorial in
/-- wgpu::SurfaceConfiguration of src/window/src/lib.rs (no alpha_mode
field in this variant). -/
structure SurfaceConfiguration where
  usage : TextureUsages
  format : Nat
  width : Nat
  height : Nat
  present_mode : PresentMode
deriving DecidableEq

open Tutorial

/-- The State struct of src/window/src/lib.rs: no vertex buffer and no
num_vertices field. -/
structure State where
  config : SurfaceConfiguration
  size : PhysicalSize
  render_pipeline : RenderPipeline
deriving DecidableEq

/-- State::new (src/window/src/lib.rs, lines 18-104): same construction
as the main variant except that the configuration has no alpha mode, the
pipeline's vertex buffer list is empty and its fragment write mask is
ALL. -/
def State.new (initSize : PhysicalSize) (surfaceFormat : Nat) :
    State × List (Effect SurfaceConfiguration) :=
  let config : SurfaceConfiguration :=
    { usage := TextureUsages.RENDER_ATTACHMENT
      format := surfaceFormat
      width := initSize.width
      height := initSize.height
      present_mode := PresentMode.Fifo }
  let render_pipeline : RenderPipeline :=
    { label := "Render Pipeline"
      vertex_entry_point := "vs_main"
      vertex_buffers := []
      primitive :=
        { topology := PrimitiveTopology.TriangleList
          strip_index_format := none
          front_face := FrontFace.Ccw
          cull_mode := some Face.Back
          unclipped_depth := false
          polygon_mode := PolygonMode.Fill
          conservative := false }
      fragment_entry_point := "fs_main"
      fragment_targets :=
        [ { format := config.format
            blend := some BlendState.REPLACE
            write_mask := ColorWrites.ALL } ]
      multisample :=
        { count := 1, mask := 2 ^ 64 - 1, alpha_to_coverage_enabled := false } }
  ( { config := config, size := initSize, render_pipeline := render_pipeline }
  , [Effect.configureSurface config] )

/-- State::resize (src/window/src/lib.rs, lines 106-113): identical body
to the main variant's resize. -/
def State.resize (s : State) (new_size : PhysicalSize) :
    State × List (Effect SurfaceConfiguration) :=
  if 0 < new_size.width ∧ 0 < new_size.height then
    let config :=
      { s.config with width := new_size.width, height := new_size.height }
    ( { s with size := new_size, config := config }
    , [Effect.configureSurface config] )
  else
    (s, [])

/-- State::render (src/window/src/lib.rs, lines 124-168): same as the
main variant's render but without a vertex buffer; the draw call is the
literal `draw(0..3, 0..1)`. -/
def State.render (s : State) (acquire : Option SurfaceError) :
    State × Except SurfaceError Unit × List (Effect SurfaceConfiguration) :=
  match acquire with
  | some e => (s, Except.error e, [Effect.getCurrentTexture])
  | none =>
    ( s
    , Except.ok ()
    , [ Effect.getCurrentTexture
      , Effect.createView
      , Effect.submit
          [ [ RenderCmd.beginRenderPass "Render Pass" clearBlack true
            , RenderCmd.setPipeline
            , RenderCmd.draw 0 3 0 1 ] ]
      , Effect.present ] )

/-- The reachable states of the src/window/src/lib.rs variant, analogous
to the main variant's Reachable. -/
inductive Reachable (initSize : PhysicalSize) (surfaceFormat : Nat) :
    State → Prop
  | new : Reachable initSize surfaceFormat (State.new initSize surfaceFormat).1
  | resize (s : State) (new_size : PhysicalSize) :
      Reachable initSize surfaceFormat s →
      Reachable initSize surfaceFormat (s.resize new_size).1
  | render (s : State) (acquire : Option SurfaceError) :
      Reachable initSize surfaceFormat s →
      Reachable initSize surfaceFormat (s.render acquire).1

end TutorialWindow

/-! ### Concrete instances used to witness the theorems below -/

/-- A concrete startup state of the main variant: initial window inner
size 800x600, surface format index 0. -/
def exampleState : Tutorial.State := (Tutorial.State.new ⟨800, 600⟩ 0).1

/-- A concrete startup state of the window variant. -/
def exampleWState : TutorialWindow.State :=
  (TutorialWindow.State.new ⟨800, 600⟩ 0).1

/-- A concrete loop state: the startup state with the loop running. -/
def exampleLoopState : Tutorial.LoopState :=
  { state := exampleState, control_flow := Tutorial.ControlFlow.Poll }

/-! ### The claims -/

/-- Claim C1: a resize call whose new size has width = 0 or height = 0 is
a no-op in both variants: the state (hence the stored configuration's
format, width, height and present mode, and the stored size) is returned
unchanged and no surface-configure effect is performed. -/
theorem resize_zero_is_noop (s : Tutorial.State) (ws : TutorialWindow.State)
    (new_size : Tutorial.PhysicalSize)
    (h : new_size.width = 0 ∨ new_size.height = 0) :
    s.resize new_size = (s, []) ∧ ws.resize new_size = (ws, []) := by
  have hc : ¬(0 < new_size.width ∧ 0 < new_size.height) := by
    rcases h with h | h <;> simp [h]
  exact ⟨by simp [Tutorial.State.resize, hc],
         by simp [TutorialWindow.State.resize, hc]⟩

/-- Witness for C1 at the concrete startup states and new size 0x600. -/
theorem resize_zero_is_noop_witness :
    exampleState.resize ⟨0, 600⟩ = (exampleState, []) ∧
    exampleWState.resize ⟨0, 600⟩ = (exampleWState, []) :=
  resize_zero_is_noop exampleState exampleWState ⟨0, 600⟩ (Or.inl rfl)

/-- Claim C2: a resize call with positive width and height stores the new
size, sets the configuration's width and height to the new size's values,
and reconfigures the surface with exactly that updated configuration, in
both variants. -/
theorem resize_positive_updates (s : Tutorial.State)
    (ws : TutorialWindow.State) (new_size : Tutorial.PhysicalSize)
    (hw : 0 < new_size.width) (hh : 0 < new_size.height) :
    s.resize new_size =
      ( { s with
            size := new_size
            config := { s.config with
                          width := new_size.width
                          height := new_size.height } }
      , [Tutorial.Effect.configureSurface
          { s.config with
              width := new_size.width, height := new_size.height }] ) ∧
    ws.resize new_size =
      ( { ws with
            size := new_size
            config := { ws.config with
                          width := new_size.width
                          height := new_size.height } }
      , [Tutorial.Effect.configureSurface
          { ws.config with
              width := new_size.width, height := new_size.height }] ) :=
  ⟨by simp [Tutorial.State.resize, hw, hh],
   by simp [TutorialWindow.State.resize, hw, hh]⟩

/-- Witness for C2 at the concrete startup states and new size 1024x768. -/
theorem resize_positive_updates_witness :
    exampleState.resize ⟨1024, 768⟩ =
      ( { exampleState with
            size := ⟨1024, 768⟩
            config := { exampleState.config with
                          width := 1024, height := 768 } }
      , [Tutorial.Effect.configureSurface
          { exampleState.config with width := 1024, height := 768 }] ) ∧
    exampleWState.resize ⟨1024, 768⟩ =
      ( { exampleWState with
            size := ⟨1024, 768⟩
            config := { exampleWState.config with
                          width := 1024, height := 768 } }
      , [Tutorial.Effect.configureSurface
          { exampleWState.config with width := 1024, height := 768 }] ) :=
  resize_positive_updates exampleState exampleWState ⟨1024, 768⟩
    (by decide) (by decide)

/-- Claim C9: a successful render produces exactly one frame in both
variants, with the effect trace in order: acquire the surface texture,
create its view, submit exactly one command buffer holding one render
pass that clears to opaque black, binds the pipeline (and, in the
vertex-buffer variant, the vertex buffer in slot 0) and issues one draw
call over instances 0..1, and finally present the acquired image. -/
theorem render_success_effect_trace (s : Tutorial.State)
    (ws : TutorialWindow.State) :
    s.render none =
      ( s
      , Except.ok ()
      , [ Tutorial.Effect.getCurrentTexture
        , Tutorial.Effect.createView
        , Tutorial.Effect.submit
            [ [ Tutorial.RenderCmd.beginRenderPass "Render Pass"
                  Tutorial.clearBlack true
              , Tutorial.RenderCmd.setPipeline
              , Tutorial.RenderCmd.setVertexBuffer 0
              , Tutorial.RenderCmd.draw 0 s.num_vertices 0 1 ] ]
        , Tutorial.Effect.present ] ) ∧
    ws.render none =
      ( ws
      , Except.ok ()
      , [ Tutorial.Effect.getCurrentTexture
        , Tutorial.Effect.createView
        , Tutorial.Effect.submit
            [ [ Tutorial.RenderCmd.beginRenderPass "Render Pass"
                  Tutorial.clearBlack true
              , Tutorial.RenderCmd.setPipeline
              , Tutorial.RenderCmd.draw 0 3 0 1 ] ]
        , Tutorial.Effect.present ] ) :=
  ⟨rfl, rfl⟩

/-- Claim C3: in every reachable state of either variant, provided the
window's initial inner size has both dimensions positive, the stored
configuration's width and height are strictly positive: State::new
establishes it from the initial size and resize and render preserve
it. -/
theorem reachable_config_dims_positive
    (initSize : Tutorial.PhysicalSize) (surfaceFormat : Nat)
    (s : Tutorial.State) (ws : TutorialWindow.State)
    (hw : 0 < initSize.width) (hh : 0 < initSize.height)
    (hs : Tutorial.Reachable initSize surfaceFormat s)
    (hws : TutorialWindow.Reachable initSize surfaceFormat ws) :
    (0 < s.config.width ∧ 0 < s.config.height) ∧
    (0 < ws.config.width ∧ 0 < ws.config.height) := by
  constructor
  · induction hs with
    | new => exact ⟨hw, hh⟩
    | resize s n _ ih =>
      by_cases hc : 0 < n.width ∧ 0 < n.height
      · simp only [Tutorial.State.resize, if_pos hc]
        exact ⟨hc.1, hc.2⟩
      · simpa [Tutorial.State.resize, hc] using ih
    | render s a _ ih =>
      cases a <;> simpa [Tutorial.State.render] using ih
  · induction hws with
    | new => exact ⟨hw, hh⟩
    | resize s n _ ih =>
      by_cases hc : 0 < n.width ∧ 0 < n.height
      · simp only [TutorialWindow.State.resize, if_pos hc]
        exact ⟨hc.1, hc.2⟩
      · simpa [TutorialWindow.State.resize, hc] using ih
    | render s a _ ih =>
      cases a <;> simpa [TutorialWindow.State.render] using ih

/-- Witness for C3 at the concrete startup states (initial size
800x600). -/
theorem reachable_config_dims_positive_witness :
    (0 < exampleState.config.width ∧ 0 < exampleState.config.height) ∧
    (0 < exampleWState.config.width ∧ 0 < exampleWState.config.height) :=
  reachable_config_dims_positive ⟨800, 600⟩ 0 exampleState exampleWState
    (by decide) (by decide) Tutorial.Reachable.new TutorialWindow.Reachable.new

/-- Claim C10: in every reachable state of either variant the stored size
mirrors the configuration's dimensions: State::new establishes it,
resize updates both fields together under the same guard, and render
modifies neither. -/
theorem reachable_size_mirrors_config
    (initSize : Tutorial.PhysicalSize) (surfaceFormat : Nat)
    (s : Tutorial.State) (ws : TutorialWindow.State)
    (hs : Tutorial.Reachable initSize surfaceFormat s)
    (hws : TutorialWindow.Reachable initSize surfaceFormat ws) :
    (s.size.width = s.config.width ∧ s.size.height = s.config.height) ∧
    (ws.size.width = ws.config.width ∧ ws.size.height = ws.config.height) := by
  constructor
  · induction hs with
    | new => exact ⟨rfl, rfl⟩
    | resize s n _ ih =>
      by_cases hc : 0 < n.width ∧ 0 < n.height
      · simp [Tutorial.State.resize, hc]
      · simpa [Tutorial.State.resize, hc] using ih
    | render s a _ ih =>
      cases a <;> simpa [Tutorial.State.render] using ih
  · induction hws with
    | new => exact ⟨rfl, rfl⟩
    | resize s n _ ih =>
      by_cases hc : 0 < n.width ∧ 0 < n.height
      · simp [TutorialWindow.State.resize, hc]
      · simpa [TutorialWindow.State.resize, hc] using ih
    | render s a _ ih =>
      cases a <;> simpa [TutorialWindow.State.render] using ih

/-- Witness for C10 at the concrete startup states. -/
theorem reachable_size_mirrors_config_witness :
    (exampleState.size.width = exampleState.config.width ∧
      exampleState.size.height = exampleState.config.height) ∧
    (exampleWState.size.width = exampleWState.config.width ∧
      exampleWState.size.height = exampleWState.config.height) :=
  reachable_size_mirrors_config ⟨800, 600⟩ 0 exampleState exampleWState
    Tutorial.Reachable.new TutorialWindow.Reachable.new

/-- Whether a recorded command is a draw call. -/
def Tutorial.isDraw : Tutorial.RenderCmd → Bool
  | Tutorial.RenderCmd.draw _ _ _ _ => true
  | _ => false

/-- All commands submitted to the queue by an effect trace, in order. -/
def Tutorial.submittedCmds {Cfg : Type} :
    List (Tutorial.Effect Cfg) → List Tutorial.RenderCmd
  | [] => []
  | Tutorial.Effect.submit bufs :: rest =>
    bufs.flatten ++ Tutorial.submittedCmds rest
  | _ :: rest => Tutorial.submittedCmds rest

/-- In the main variant, the render pipeline, the vertex count and the
vertex-buffer contents are fixed at State::new and never change: resize
only touches the size and the configuration, and render touches
nothing. -/
theorem Tutorial.reachable_pipeline_fixed {initSize : Tutorial.PhysicalSize}
    {surfaceFormat : Nat} {s : Tutorial.State}
    (hs : Tutorial.Reachable initSize surfaceFormat s) :
    s.render_pipeline =
      (Tutorial.State.new initSize surfaceFormat).1.render_pipeline ∧
    s.num_vertices = 3 ∧ s.vertex_buffer = Tutorial.VERTICES := by
  induction hs with
  | new => exact ⟨rfl, rfl, rfl⟩
  | resize s n _ ih =>
    by_cases hc : 0 < n.width ∧ 0 < n.height <;>
      simpa [Tutorial.State.resize, hc] using ih
  | render s a _ ih =>
    cases a <;> simpa [Tutorial.State.render] using ih

/-- Claim C7: in every render invocation of a reachable state that
reaches the draw call (i.e. texture acquisition succeeded), the submitted
commands contain exactly one draw call, covering the vertex range 0..3 —
all of the three fixed triangle vertices — with the single instance
range 0..1, and the state's pipeline is configured with triangle-list
topology, counter-clockwise front face and back-face culling. -/
theorem draw_covers_triangle_once (initSize : Tutorial.PhysicalSize)
    (surfaceFormat : Nat) (s : Tutorial.State)
    (hs : Tutorial.Reachable initSize surfaceFormat s) :
    (Tutorial.submittedCmds (s.render none).2.2).filter Tutorial.isDraw =
      [Tutorial.RenderCmd.draw 0 3 0 1] ∧
    Tutorial.VERTICES.length = 3 ∧
    s.render_pipeline.primitive.topology =
      Tutorial.PrimitiveTopology.TriangleList ∧
    s.render_pipeline.primitive.front_face = Tutorial.FrontFace.Ccw ∧
    s.render_pipeline.primitive.cull_mode = some Tutorial.Face.Back := by
  obtain ⟨hp, hn, -⟩ := Tutorial.reachable_pipeline_fixed hs
  refine ⟨?_, rfl, ?_, ?_, ?_⟩
  · simp [Tutorial.State.render, Tutorial.submittedCmds, Tutorial.isDraw, hn]
  · rw [hp]; rfl
  · rw [hp]; rfl
  · rw [hp]; rfl

/-- Witness for C7 at the concrete startup state. -/
theorem draw_covers_triangle_once_witness :
    (Tutorial.submittedCmds (exampleState.render none).2.2).filter
        Tutorial.isDraw = [Tutorial.RenderCmd.draw 0 3 0 1] ∧
    Tutorial.VERTICES.length = 3 ∧
    exampleState.render_pipeline.primitive.topology =
      Tutorial.PrimitiveTopology.TriangleList ∧
    exampleState.render_pipeline.primitive.front_face =
      Tutorial.FrontFace.Ccw ∧
    exampleState.render_pipeline.primitive.cull_mode =
      some Tutorial.Face.Back :=
  draw_covers_triangle_once ⟨800, 600⟩ 0 exampleState Tutorial.Reachable.new

/-- Claim C4: when a running loop processes a redraw whose texture
acquisition fails with Lost, its step invokes the resize handler with the
current stored size (the resulting loop state carries exactly
`resize state.size`), and — the stored size having positive dimensions,
as every reachable state does — emits a surface-reconfigure effect
immediately after the failed acquisition, before any effect of any later
event; in particular before the next frame's render is attempted. -/
theorem lost_frame_reconfigures_before_next (ls : Tutorial.LoopState)
    (rest : List Tutorial.EventIn)
    (hcf : ls.control_flow = Tutorial.ControlFlow.Poll)
    (hw : 0 < ls.state.size.width) (hh : 0 < ls.state.size.height) :
    Tutorial.runLoop ls
        (Tutorial.EventIn.RedrawRequested (some Tutorial.SurfaceError.Lost)
          :: rest) =
      ( (Tutorial.runLoop
          { ls with state := (ls.state.resize ls.state.size).1 } rest).1
      , Tutorial.Effect.getCurrentTexture ::
          Tutorial.Effect.configureSurface
            { ls.state.config with
                width := ls.state.size.width
                height := ls.state.size.height } ::
          (Tutorial.runLoop
            { ls with state := (ls.state.resize ls.state.size).1 } rest).2 ) := by
  obtain ⟨s, cf⟩ := ls
  cases hcf
  have hc : 0 < s.size.width ∧ 0 < s.size.height := ⟨hw, hh⟩
  simp [Tutorial.runLoop, Tutorial.step, Tutorial.State.update,
    Tutorial.State.render, Tutorial.State.resize, hc]

/-- Witness for C4: the startup loop state, a single Lost frame, no
further events. -/
theorem lost_frame_reconfigures_before_next_witness :
    Tutorial.runLoop exampleLoopState
        [Tutorial.EventIn.RedrawRequested (some Tutorial.SurfaceError.Lost)] =
      ( (Tutorial.runLoop
          { exampleLoopState with
              state :=
                (exampleLoopState.state.resize exampleLoopState.state.size).1 }
          []).1
      , Tutorial.Effect.getCurrentTexture ::
          Tutorial.Effect.configureSurface
            { exampleLoopState.state.config with
                width := exampleLoopState.state.size.width
                height := exampleLoopState.state.size.height } ::
          (Tutorial.runLoop
            { exampleLoopState with
                state :=
                  (exampleLoopState.state.resize exampleLoopState.state.size).1 }
            []).2 ) :=
  lost_frame_reconfigures_before_next exampleLoopState [] rfl
    (by decide) (by decide)

/-- Claim C5: when a running loop processes a redraw whose texture
acquisition fails with OutOfMemory, the control flow is set to Exit, the
only effect ever performed from then on is that single failed
acquisition, and — whatever events follow — none of them is processed
and no further frame is rendered. -/
theorem oom_exits_loop (ls : Tutorial.LoopState)
    (rest : List Tutorial.EventIn)
    (hcf : ls.control_flow = Tutorial.ControlFlow.Poll) :
    Tutorial.runLoop ls
        (Tutorial.EventIn.RedrawRequested
          (some Tutorial.SurfaceError.OutOfMemory) :: rest) =
      ( { ls with control_flow := Tutorial.ControlFlow.Exit }
      , [Tutorial.Effect.getCurrentTexture] ) := by
  obtain ⟨s, cf⟩ := ls
  cases hcf
  cases rest <;>
    simp [Tutorial.runLoop, Tutorial.step, Tutorial.State.update,
      Tutorial.State.render]

/-- Witness for C5: the startup loop state, an OutOfMemory frame followed
by another redraw event that is never processed. -/
theorem oom_exits_loop_witness :
    Tutorial.runLoop exampleLoopState
        [ Tutorial.EventIn.RedrawRequested
            (some Tutorial.SurfaceError.OutOfMemory)
        , Tutorial.EventIn.RedrawRequested none ] =
      ( { exampleLoopState with control_flow := Tutorial.ControlFlow.Exit }
      , [Tutorial.Effect.getCurrentTexture] ) :=
  oom_exits_loop exampleLoopState [Tutorial.EventIn.RedrawRequested none] rfl

/-- Claim C6: a close-requested window event, and a keyboard event
carrying a pressed Escape key, each set the control flow to Exit with no
effects at all — whatever events follow are not processed, so no further
frame is rendered; any other keyboard input leaves the loop state
entirely unchanged (still running). -/
theorem close_or_escape_exits_loop (ls : Tutorial.LoopState)
    (rest : List Tutorial.EventIn) (k : Tutorial.KeyboardInput)
    (hcf : ls.control_flow = Tutorial.ControlFlow.Poll)
    (hk : ¬(k.state = Tutorial.ElementState.Pressed ∧
            k.virtual_keycode = some Tutorial.VirtualKeyCode.Escape)) :
    Tutorial.runLoop ls
        (Tutorial.EventIn.WindowEventFor Tutorial.WindowEvent.CloseRequested
          :: rest) =
      ({ ls with control_flow := Tutorial.ControlFlow.Exit }, []) ∧
    Tutorial.runLoop ls
        (Tutorial.EventIn.WindowEventFor
          (Tutorial.WindowEvent.KeyboardInputEvent
            { state := Tutorial.ElementState.Pressed
              virtual_keycode := some Tutorial.VirtualKeyCode.Escape })
          :: rest) =
      ({ ls with control_flow := Tutorial.ControlFlow.Exit }, []) ∧
    Tutorial.step ls
        (Tutorial.EventIn.WindowEventFor
          (Tutorial.WindowEvent.KeyboardInputEvent k)) = (ls, []) := by
  obtain ⟨s, cf⟩ := ls
  cases hcf
  refine ⟨?_, ?_, ?_⟩
  · cases rest <;>
      simp [Tutorial.runLoop, Tutorial.step, Tutorial.State.input]
  · cases rest <;>
      simp [Tutorial.runLoop, Tutorial.step, Tutorial.State.input]
  · obtain ⟨st, kc⟩ := k
    cases st
    · rcases kc with _ | kc
      · simp [Tutorial.step, Tutorial.State.input]
      · cases kc
        · exact absurd ⟨rfl, rfl⟩ hk
        · simp [Tutorial.step, Tutorial.State.input]
    · rcases kc with _ | kc
      · simp [Tutorial.step, Tutorial.State.input]
      · cases kc <;> simp [Tutorial.step, Tutorial.State.input]

/-- Witness for C6: the startup loop state, a pending redraw event that
is never reached, and a released-Escape keyboard input as the
non-terminating input. -/
theorem close_or_escape_exits_loop_witness :
    Tutorial.runLoop exampleLoopState
        [ Tutorial.EventIn.WindowEventFor Tutorial.WindowEvent.CloseRequested
        , Tutorial.EventIn.RedrawRequested none ] =
      ({ exampleLoopState with control_flow := Tutorial.ControlFlow.Exit }, []) ∧
    Tutorial.runLoop exampleLoopState
        [ Tutorial.EventIn.WindowEventFor
            (Tutorial.WindowEvent.KeyboardInputEvent
              { state := Tutorial.ElementState.Pressed
                virtual_keycode := some Tutorial.VirtualKeyCode.Escape })
        , Tutorial.EventIn.RedrawRequested none ] =
      ({ exampleLoopState with control_flow := Tutorial.ControlFlow.Exit }, []) ∧
    Tutorial.step exampleLoopState
        (Tutorial.EventIn.WindowEventFor
          (Tutorial.WindowEvent.KeyboardInputEvent
            { state := Tutorial.ElementState.Released
              virtual_keycode := some Tutorial.VirtualKeyCode.Escape })) =
      (exampleLoopState, []) :=
  close_or_escape_exits_loop exampleLoopState
    [Tutorial.EventIn.RedrawRequested none]
    { state := Tutorial.ElementState.Released
      virtual_keycode := some Tutorial.VirtualKeyCode.Escape }
    rfl (by decide)

/-- Claim C8: when a redraw's texture acquisition fails with an error
other than Lost or OutOfMemory, the step logs the error and performs
nothing else after the failed acquisition (the frame is dropped, with no
retry, no submission and no presentation), the loop state — configuration,
size and control flow — is unchanged, and the loop goes on to process the
remaining events exactly as it would have from the same state. -/
theorem transient_error_logs_and_drops_frame (ls : Tutorial.LoopState)
    (rest : List Tutorial.EventIn) (e : Tutorial.SurfaceError)
    (hcf : ls.control_flow = Tutorial.ControlFlow.Poll)
    (h1 : e ≠ Tutorial.SurfaceError.Lost)
    (h2 : e ≠ Tutorial.SurfaceError.OutOfMemory) :
    Tutorial.step ls (Tutorial.EventIn.RedrawRequested (some e)) =
      (ls, [Tutorial.Effect.getCurrentTexture, Tutorial.Effect.logError e]) ∧
    Tutorial.runLoop ls (Tutorial.EventIn.RedrawRequested (some e) :: rest) =
      ( (Tutorial.runLoop ls rest).1
      , Tutorial.Effect.getCurrentTexture :: Tutorial.Effect.logError e ::
          (Tutorial.runLoop ls rest).2 ) := by
  obtain ⟨s, cf⟩ := ls
  cases hcf
  cases e
  · constructor <;>
      simp [Tutorial.runLoop, Tutorial.step, Tutorial.State.update,
        Tutorial.State.render]
  · constructor <;>
      simp [Tutorial.runLoop, Tutorial.step, Tutorial.State.update,
        Tutorial.State.render]
  · exact absurd rfl h1
  · exact absurd rfl h2

/-- Witness for C8: the startup loop state, a Timeout frame followed by a
close request that is still processed afterwards. -/
theorem transient_error_logs_and_drops_frame_witness :
    Tutorial.step exampleLoopState
        (Tutorial.EventIn.RedrawRequested (some Tutorial.SurfaceError.Timeout)) =
      ( exampleLoopState
      , [ Tutorial.Effect.getCurrentTexture
        , Tutorial.Effect.logError Tutorial.SurfaceError.Timeout ] ) ∧
    Tutorial.runLoop exampleLoopState
        [ Tutorial.EventIn.RedrawRequested (some Tutorial.SurfaceError.Timeout)
        , Tutorial.EventIn.WindowEventFor Tutorial.WindowEvent.CloseRequested ] =
      ( (Tutorial.runLoop exampleLoopState
          [Tutorial.EventIn.WindowEventFor
            Tutorial.WindowEvent.CloseRequested]).1
      , Tutorial.Effect.getCurrentTexture ::
          Tutorial.Effect.logError Tutorial.SurfaceError.Timeout ::
          (Tutorial.runLoop exampleLoopState
            [Tutorial.EventIn.WindowEventFor
              Tutorial.WindowEvent.CloseRequested]).2 ) :=
  transient_error_logs_and_drops_frame exampleLoopState
    [Tutorial.EventIn.WindowEventFor Tutorial.WindowEvent.CloseRequested]
    Tutorial.SurfaceError.Timeout rfl (by decide) (by decide)
